import Mathlib

/-!
# Database-set transaction context of the bcdb SDK

A shallow embedding of `pkg/bcdb/dbs_tx_context.go`.  Methods with a pointer receiver
are functions that take the context and return the context they leave behind together
with their Go results.  The collaborators reached through handles stored in the context
(the signer, the REST client behind `handleRequest`, the URL helper of the server
package) are arguments of the functions that use them.  Logging is not modelled.

The commit and abort routines of the common context and the admin operations of the
configuration context are not among the listed sources; they are modelled from the
specification and marked as such.
-/

namespace Bcdb

/-! ## Go values -/

/-- A Go `error` value that is not nil: the sentinel `ErrTxSpent` of the package, or any
other error, identified by its message. -/
inductive GoError where
  | ErrTxSpent
  | other (msg : String)
deriving DecidableEq, Repr

/-- Assignment `m[k] = v` on the entries of a map: an entry with key `k` is overwritten
where it stands, otherwise a new entry is added. -/
def setEntry (k : String) (v : Bool) : List (String × Bool) → List (String × Bool)
  | [] => [(k, v)]
  | (k', v') :: rest =>
    if k' = k then (k, v) :: rest else (k', v') :: setEntry k v rest

/-- A non-nil Go `map[string]bool`: finitely many entries, at most one per key.  The
position of an entry in `entries` is not observable: `range` is modelled by `RangeOrder`. -/
structure GoMap where
  entries : List (String × Bool)
  nodupKeys : (entries.map Prod.fst).Nodup
deriving DecidableEq

namespace GoMap

/-- The map literal `map[string]bool{}`. -/
def empty : GoMap := ⟨[], List.nodup_nil⟩

/-- The keys present in the map. -/
def keys (m : GoMap) : List String := m.entries.map Prod.fst

/-- The assignment `m[k] = v`. -/
def set (m : GoMap) (k : String) (v : Bool) : GoMap :=
  ⟨setEntry k v m.entries, by
    have keys_eq : ∀ l : List (String × Bool), (setEntry k v l).map Prod.fst =
        if k ∈ l.map Prod.fst then l.map Prod.fst else l.map Prod.fst ++ [k] := by
      intro l
      induction l with
      | nil => simp [setEntry]
      | cons hd tl ih =>
        obtain ⟨k', v'⟩ := hd
        by_cases h : k' = k
        · subst h
          simp [setEntry]
        · have h' : ¬ k = k' := fun e => h e.symm
          by_cases hm : k ∈ tl.map Prod.fst
          · simp only [setEntry, h, if_false, List.map_cons, ih, hm, if_true, List.mem_cons,
              or_true]
          · simp only [setEntry, h, if_false, List.map_cons, ih, hm, List.mem_cons, h',
              or_self, List.cons_append]
    rw [keys_eq]
    split
    · exact m.nodupKeys
    · rename_i hk
      exact List.Nodup.append m.nodupKeys (List.nodup_singleton k) (by simpa using hk)⟩

/-- Membership of a name in a map used as a set: the name is a key of the map. -/
def Mem (m : GoMap) (k : String) : Prop := k ∈ m.keys

instance (m : GoMap) (k : String) : Decidable (m.Mem k) :=
  inferInstanceAs (Decidable (k ∈ m.keys))

/-- The key sequences a `for k := range m` loop may visit: every key exactly once, in an
order the language leaves unspecified (it may differ from one loop to the next). -/
def RangeOrder (m : GoMap) (ks : List String) : Prop := ks.Perm m.keys

instance (m : GoMap) (ks : List String) : Decidable (m.RangeOrder ks) :=
  inferInstanceAs (Decidable (ks.Perm m.keys))

end GoMap

/-! ## Messages of the server package used by the context -/

/-- The message `types.DBAdministrationTx`. -/
structure DBAdministrationTx where
  UserId : String
  TxId : String
  CreateDbs : List String
  DeleteDbs : List String
deriving DecidableEq, Repr

/-- The message `types.DBAdministrationTxEnvelope`. -/
structure DBAdministrationTxEnvelope where
  Payload : DBAdministrationTx
  Signature : List Nat
deriving DecidableEq, Repr

/-- The message `types.GetDBStatusQuery`. -/
structure GetDBStatusQuery where
  UserId : String
  DbName : String
deriving DecidableEq, Repr

/-- The message `types.GetDBStatusResponse`, reduced to the field the context reads. -/
structure GetDBStatusResponse where
  Exist : Bool
deriving DecidableEq, Repr

/-- The message `types.GetDBStatusResponseEnvelope`; the response pointer may be nil. -/
structure GetDBStatusResponseEnvelope where
  Response : Option GetDBStatusResponse
  Signature : List Nat
deriving DecidableEq, Repr

/-- The getter `GetResponse().GetExist()`: false when the response is nil. -/
def GetDBStatusResponseEnvelope.getExist (e : GetDBStatusResponseEnvelope) : Bool :=
  match e.Response with
  | none => false
  | some r => r.Exist

/-! ## Collaborators -/

/-- The signing service behind `cryptoservice.SignTx`: the payload is marshalled to bytes
and the bytes are handed to the signer of the context. -/
structure CryptoService where
  marshal : DBAdministrationTx → Except GoError (List Nat)
  sign : List Nat → Except GoError (List Nat)

/-- The call `cryptoservice.SignTx(d.signer, payload)`. -/
def SignTx (cs : CryptoService) (payload : DBAdministrationTx) : Except GoError (List Nat) :=
  match cs.marshal payload with
  | .error err => .error err
  | .ok bytes => cs.sign bytes

/-- The request dispatcher `handleRequest(path, query, resEnv)`: it fills the response
envelope it is given and returns an error or nil. -/
abbrev RequestHandler :=
  String → GetDBStatusQuery → GetDBStatusResponseEnvelope →
    GetDBStatusResponseEnvelope × Option GoError

/-- The receipt of a submitted transaction: its validation flag and, when the flag is not
VALID, the reason given by the server. -/
structure TxReceipt where
  valid : Bool
  flag : String
  reason : String
deriving DecidableEq, Repr

/-- The submit capability of the request dispatcher: path, signed envelope and whether to
wait for the receipt; it answers with a receipt (none while pending) or an error. -/
abbrev Submitter :=
  String → DBAdministrationTxEnvelope → Bool → Except GoError (Option TxReceipt)

/-! ## The context -/

/-- Modelled from the spec: the struct `commonTxContext` is declared outside
`dbs_tx_context.go`.  It carries the identity `userID`, the transaction identifier and the
single boolean `txSpent`; its signer, REST client, logger and replica set are the
collaborators passed to the functions below. -/
structure commonTxContext where
  userID : String
  txID : String
  txSpent : Bool
deriving DecidableEq

/-- The struct `dbsTxContext`: the embedded common context and the two staged sets.  Both
maps are allocated, as in every context the package builds (the struct literals use
`map[string]bool{}`, and so does `cleanCtx`). -/
structure dbsTxContext extends commonTxContext where
  createdDBs : GoMap
  deletedDBs : GoMap
deriving DecidableEq

namespace dbsTxContext

/-- The method `CreateDB`. -/
def CreateDB (d : dbsTxContext) (dbName : String) : dbsTxContext × Option GoError :=
  if d.txSpent then
    (d, some GoError.ErrTxSpent)
  else
    ({ d with createdDBs := d.createdDBs.set dbName true }, none)

/-- The method `DeleteDB`. -/
def DeleteDB (d : dbsTxContext) (dbName : String) : dbsTxContext × Option GoError :=
  if d.txSpent then
    (d, some GoError.ErrTxSpent)
  else
    ({ d with deletedDBs := d.deletedDBs.set dbName true }, none)

/-- What a call of `Exists` leaves behind: the context, the queries handed to the request
dispatcher, and the two Go results. -/
structure ExistsResult where
  ctx : dbsTxContext
  queries : List (String × GetDBStatusQuery)
  exist : Bool
  err : Option GoError
deriving DecidableEq

/-- The method `Exists`; `urlForGetDBStatus` is `constants.URLForGetDBStatus`. -/
def Exists (urlForGetDBStatus : String → String) (handleRequest : RequestHandler)
    (d : dbsTxContext) (dbName : String) : ExistsResult :=
  if d.txSpent then
    { ctx := d, queries := [], exist := false, err := some GoError.ErrTxSpent }
  else
    let path := urlForGetDBStatus dbName
    let resEnv : GetDBStatusResponseEnvelope := { Response := none, Signature := [] }
    let query : GetDBStatusQuery := { UserId := d.userID, DbName := dbName }
    match handleRequest path query resEnv with
    | (_, some err) => { ctx := d, queries := [(path, query)], exist := false, err := some err }
    | (resEnv, none) =>
      { ctx := d, queries := [(path, query)], exist := resEnv.getExist, err := none }

/-- The method `cleanCtx`. -/
def cleanCtx (d : dbsTxContext) : dbsTxContext :=
  { d with createdDBs := GoMap.empty, deletedDBs := GoMap.empty }

/-- The payload `composeEnvelope` builds before signing: the struct literal and the two
`range` loops, which visit the keys in the orders `createOrder` and `deleteOrder`. -/
def buildPayload (d : dbsTxContext) (txID : String) (createOrder deleteOrder : List String) :
    DBAdministrationTx :=
  let payload : DBAdministrationTx :=
    { UserId := d.userID, TxId := txID, CreateDbs := [], DeleteDbs := [] }
  let payload := createOrder.foldl
    (fun p db => { p with CreateDbs := p.CreateDbs ++ [db] }) payload
  deleteOrder.foldl (fun p db => { p with DeleteDbs := p.DeleteDbs ++ [db] }) payload

/-- The method `composeEnvelope`.  The orders in which the two `range` loops visit the
maps are arguments; a run of the Go code corresponds to orders with
`d.createdDBs.RangeOrder createOrder` and `d.deletedDBs.RangeOrder deleteOrder`. -/
def composeEnvelope (cs : CryptoService) (d : dbsTxContext) (txID : String)
    (createOrder deleteOrder : List String) :
    dbsTxContext × Except GoError DBAdministrationTxEnvelope :=
  let payload := buildPayload d txID createOrder deleteOrder
  match SignTx cs payload with
  | .error err => (d, .error err)
  | .ok signature => (d, .ok { Payload := payload, Signature := signature })

/-! ## Commit and abort -/

/-- What a call of `Commit` leaves behind: the context, the envelopes handed to the
request dispatcher, and the three Go results. -/
structure CommitResult where
  ctx : dbsTxContext
  submitted : List (String × DBAdministrationTxEnvelope)
  txID : String
  receipt : Option TxReceipt
  err : Option GoError
deriving DecidableEq

/-- Modelled from the spec: the function `commonTxContext.commit` is not part of
`dbs_tx_context.go`.  It fails with ErrTxSpent if the context is already spent.  Otherwise
the attempt is the one shot of the context: the context is marked spent whatever the
outcome (a context goes from open to spent via Commit or Abort, and the design choice is to
mark spent on any terminal attempt).  The signed envelope is composed; a signing failure
aborts the attempt without contacting the server and is reported as the signing error, so
the context is never spent without feedback.  Otherwise the envelope is dispatched: a
transport failure is returned as it is, and a receipt whose flag is not VALID is returned
together with an error that carries the transaction id, the flag and the reason. -/
def commit (cs : CryptoService) (submit : Submitter) (d : dbsTxContext)
    (createOrder deleteOrder : List String) (postEndpoint : String) (sync : Bool) :
    CommitResult :=
  if d.txSpent then
    { ctx := d, submitted := [], txID := "", receipt := none,
      err := some GoError.ErrTxSpent }
  else
    match d.composeEnvelope cs d.txID createOrder deleteOrder with
    | (d, .error err) =>
      { ctx := { d with txSpent := true }, submitted := [], txID := d.txID,
        receipt := none, err := some err }
    | (d, .ok envelope) =>
      let spent : dbsTxContext := { d with txSpent := true }
      match submit postEndpoint envelope sync with
      | .error err =>
        { ctx := spent, submitted := [(postEndpoint, envelope)], txID := d.txID,
          receipt := none, err := some err }
      | .ok none =>
        { ctx := spent, submitted := [(postEndpoint, envelope)], txID := d.txID,
          receipt := none, err := none }
      | .ok (some receipt) =>
        { ctx := spent, submitted := [(postEndpoint, envelope)], txID := d.txID,
          receipt := some receipt,
          err := if receipt.valid then none else
            some (GoError.other ("transaction txID = " ++ d.txID ++ " is not valid, flag: "
              ++ receipt.flag ++ ", reason: " ++ receipt.reason)) }

end dbsTxContext

/-- The message `types.Admin`. -/
structure Admin where
  Id : String
  Certificate : List Nat
deriving DecidableEq, Repr

/-- The message `types.ClusterConfig`, reduced to the admin list the admin operations
read. -/
structure ClusterConfig where
  Admins : List Admin
deriving DecidableEq, Repr

/-- Modelled from the spec: the struct `configTxContext` is not part of the listed sources
(only its test is).  A configuration context whose snapshot has been fetched: the common
context, the snapshot, and the pending diff set for admins, that is the three collections
"to add", "to delete" and "to update", kept apart from the snapshot. -/
structure configTxContext extends commonTxContext where
  snapshot : ClusterConfig
  adminsToAdd : List Admin
  adminsToDelete : List String
  adminsToUpdate : List Admin
deriving DecidableEq

namespace configTxContext

/-- Modelled from the spec: the method `AddAdmin` is not part of the listed sources.  It
fails with ErrTxSpent once spent; it fails if the id of the admin already exists in the
fetched current config, or is already staged for addition; otherwise it stages the
addition.  The messages are the ones the test compares with. -/
def AddAdmin (c : configTxContext) (admin : Admin) : configTxContext × Option GoError :=
  if c.txSpent then
    (c, some GoError.ErrTxSpent)
  else if admin.Id ∈ c.snapshot.Admins.map Admin.Id then
    (c, some (GoError.other ("admin already exists in current config: " ++ admin.Id)))
  else if admin.Id ∈ c.adminsToAdd.map Admin.Id then
    (c, some (GoError.other ("admin already exists in pending config: " ++ admin.Id)))
  else
    ({ c with adminsToAdd := c.adminsToAdd ++ [admin] }, none)

/-- Modelled from the spec: the method `DeleteAdmin` is not part of the listed sources.  It
fails with ErrTxSpent once spent; it fails if the id is not present in the fetched current
config, or is already staged for deletion in this context; otherwise it stages the
deletion.  The messages are the ones the test compares with. -/
def DeleteAdmin (c : configTxContext) (adminID : String) : configTxContext × Option GoError :=
  if c.txSpent then
    (c, some GoError.ErrTxSpent)
  else if adminID ∉ c.snapshot.Admins.map Admin.Id then
    (c, some (GoError.other ("admin does not exist in current config: " ++ adminID)))
  else if adminID ∈ c.adminsToDelete then
    (c, some (GoError.other ("admin does not exist in pending config: " ++ adminID)))
  else
    ({ c with adminsToDelete := c.adminsToDelete ++ [adminID] }, none)

end configTxContext

/-! ## Sample contexts and collaborators -/

/-- A spent context with one name staged in each set. -/
def spentCtx : dbsTxContext :=
  { userID := "admin", txID := "tx1", txSpent := true,
    createdDBs := GoMap.empty.set "db1" true, deletedDBs := GoMap.empty.set "db2" true }

/-- An open context with one name staged in each set. -/
def openCtx : dbsTxContext :=
  { userID := "admin", txID := "tx1", txSpent := false,
    createdDBs := GoMap.empty.set "db1" true, deletedDBs := GoMap.empty.set "db2" true }

/-- An open context with nothing staged, as a session hands it out. -/
def freshCtx : dbsTxContext :=
  { userID := "admin", txID := "tx1", txSpent := false,
    createdDBs := GoMap.empty, deletedDBs := GoMap.empty }

/-- An open context with two names staged for creation. -/
def twoCtx : dbsTxContext :=
  { userID := "admin", txID := "tx1", txSpent := false,
    createdDBs := (GoMap.empty.set "a" true).set "bb" true, deletedDBs := GoMap.empty }

/-- A signing service that marshals a payload to the lengths of its names and signs by
returning the bytes it is given. -/
def echoSigner : CryptoService :=
  { marshal := fun p => .ok (p.CreateDbs.map String.length ++ p.DeleteDbs.map String.length),
    sign := fun bytes => .ok bytes }

/-- A signing service whose signer always fails. -/
def failingSigner : CryptoService :=
  { marshal := fun p => .ok (p.CreateDbs.map String.length ++ p.DeleteDbs.map String.length),
    sign := fun _ => .error (GoError.other "signer unavailable") }

/-- A request dispatcher whose server reports every database as existing. -/
def alwaysExists : RequestHandler :=
  fun _ _ resEnv => ({ resEnv with Response := some { Exist := true } }, none)

/-- A request dispatcher that cannot reach any replica. -/
def unreachable : RequestHandler :=
  fun _ _ resEnv => (resEnv, some (GoError.other "cannot connect to replica"))

/-- A request dispatcher whose answer carries no response body. -/
def emptyAnswer : RequestHandler :=
  fun _ _ resEnv => (resEnv, none)

/-- The URL helper of the server package, as the samples use it. -/
def sampleURL : String → String :=
  fun dbName => "/db/" ++ dbName

/-- An open configuration context whose snapshot holds the admin "admin" and which has
nothing staged. -/
def configCtx : configTxContext :=
  { userID := "admin", txID := "tx1", txSpent := false,
    snapshot := { Admins := [{ Id := "admin", Certificate := [1] }] },
    adminsToAdd := [], adminsToDelete := [], adminsToUpdate := [] }

/-! ## Facts about maps and payloads -/

theorem setEntry_keys (k : String) (v : Bool) (l : List (String × Bool)) :
    (setEntry k v l).map Prod.fst =
      if k ∈ l.map Prod.fst then l.map Prod.fst else l.map Prod.fst ++ [k] := by
  induction l with
  | nil => simp [setEntry]
  | cons hd tl ih =>
    obtain ⟨k', v'⟩ := hd
    by_cases h : k' = k
    · subst h
      simp [setEntry]
    · have h' : ¬ k = k' := fun e => h e.symm
      by_cases hm : k ∈ tl.map Prod.fst
      · simp only [setEntry, h, if_false, List.map_cons, ih, hm, if_true, List.mem_cons,
          or_true]
      · simp only [setEntry, h, if_false, List.map_cons, ih, hm, List.mem_cons, h', or_self,
          List.cons_append]

theorem GoMap.mem_set (m : GoMap) (k : String) (v : Bool) (x : String) :
    (m.set k v).Mem x ↔ x = k ∨ m.Mem x := by
  unfold GoMap.Mem GoMap.keys GoMap.set
  simp only [setEntry_keys]
  split
  · rename_i hk
    constructor
    · exact Or.inr
    · rintro (rfl | h)
      · exact hk
      · exact h
  · simp [or_comm]

theorem setEntry_setEntry (k : String) (v : Bool) (l : List (String × Bool)) :
    setEntry k v (setEntry k v l) = setEntry k v l := by
  induction l with
  | nil => simp [setEntry]
  | cons hd tl ih =>
    obtain ⟨k', v'⟩ := hd
    by_cases h : k' = k
    · simp [setEntry, h]
    · simp [setEntry, h, ih]

theorem GoMap.set_set (m : GoMap) (k : String) (v : Bool) :
    (m.set k v).set k v = m.set k v := by
  cases m
  simp [GoMap.set, setEntry_setEntry]

theorem foldl_createDbs (ks : List String) (p : DBAdministrationTx) :
    ks.foldl (fun p db => { p with CreateDbs := p.CreateDbs ++ [db] }) p =
      { p with CreateDbs := p.CreateDbs ++ ks } := by
  induction ks generalizing p with
  | nil => simp
  | cons k ks ih => simp [ih]

theorem foldl_deleteDbs (ks : List String) (p : DBAdministrationTx) :
    ks.foldl (fun p db => { p with DeleteDbs := p.DeleteDbs ++ [db] }) p =
      { p with DeleteDbs := p.DeleteDbs ++ ks } := by
  induction ks generalizing p with
  | nil => simp
  | cons k ks ih => simp [ih]

theorem dbsTxContext.buildPayload_eq (d : dbsTxContext) (txID : String)
    (createOrder deleteOrder : List String) :
    d.buildPayload txID createOrder deleteOrder =
      { UserId := d.userID, TxId := txID, CreateDbs := createOrder,
        DeleteDbs := deleteOrder } := by
  simp [dbsTxContext.buildPayload, foldl_createDbs, foldl_deleteDbs]

theorem dbsTxContext.composeEnvelope_ctx (cs : CryptoService) (d : dbsTxContext)
    (txID : String) (createOrder deleteOrder : List String) :
    (d.composeEnvelope cs txID createOrder deleteOrder).1 = d := by
  simp only [dbsTxContext.composeEnvelope]
  cases hs : SignTx cs (d.buildPayload txID createOrder deleteOrder) <;> rfl

theorem dbsTxContext.envelope_of_ok (cs : CryptoService) (d : dbsTxContext)
    (txID : String) (createOrder deleteOrder : List String)
    (envelope : DBAdministrationTxEnvelope)
    (h : (d.composeEnvelope cs txID createOrder deleteOrder).2 = .ok envelope) :
    envelope.Payload = d.buildPayload txID createOrder deleteOrder ∧
    SignTx cs (d.buildPayload txID createOrder deleteOrder) = .ok envelope.Signature := by
  simp only [dbsTxContext.composeEnvelope] at h
  cases hs : SignTx cs (d.buildPayload txID createOrder deleteOrder) with
  | error e => rw [hs] at h; cases h
  | ok sig =>
    rw [hs] at h
    cases h
    exact ⟨rfl, rfl⟩

theorem GoMap.RangeOrder.count_eq {m : GoMap} {ks : List String} (h : m.RangeOrder ks)
    (name : String) : ks.count name = if m.Mem name then 1 else 0 := by
  have hk : m.keys.Nodup := m.nodupKeys
  rw [List.Perm.count_eq h name]
  exact List.count_eq_of_nodup hk

/-! ## Calls on a spent context -/

/-- C1: on a context whose spent flag is set, CreateDB and DeleteDB each return ErrTxSpent
and leave the created set and the deleted set as they were. -/
theorem spent_staging_rejected (d : dbsTxContext) (name : String) (h : d.txSpent = true) :
    (d.CreateDB name).2 = some GoError.ErrTxSpent ∧
    (d.CreateDB name).1.createdDBs = d.createdDBs ∧
    (d.CreateDB name).1.deletedDBs = d.deletedDBs ∧
    (d.DeleteDB name).2 = some GoError.ErrTxSpent ∧
    (d.DeleteDB name).1.createdDBs = d.createdDBs ∧
    (d.DeleteDB name).1.deletedDBs = d.deletedDBs := by
  simp [dbsTxContext.CreateDB, dbsTxContext.DeleteDB, h]

theorem spent_staging_rejected_witness :
    spentCtx.txSpent = true ∧
    (spentCtx.CreateDB "some-db").2 = some GoError.ErrTxSpent ∧
    (spentCtx.CreateDB "some-db").1.createdDBs = spentCtx.createdDBs ∧
    (spentCtx.CreateDB "some-db").1.deletedDBs = spentCtx.deletedDBs ∧
    (spentCtx.DeleteDB "some-db").2 = some GoError.ErrTxSpent ∧
    (spentCtx.DeleteDB "some-db").1.createdDBs = spentCtx.createdDBs ∧
    (spentCtx.DeleteDB "some-db").1.deletedDBs = spentCtx.deletedDBs :=
  ⟨rfl, spent_staging_rejected spentCtx "some-db" rfl⟩

/-- C2: on a context whose spent flag is set, Exists returns false with ErrTxSpent, hands
no query to the request dispatcher, and leaves the staged sets as they were. -/
theorem spent_exists_rejected (url : String → String) (handleRequest : RequestHandler)
    (d : dbsTxContext) (name : String) (h : d.txSpent = true) :
    (d.Exists url handleRequest name).exist = false ∧
    (d.Exists url handleRequest name).err = some GoError.ErrTxSpent ∧
    (d.Exists url handleRequest name).queries = [] ∧
    (d.Exists url handleRequest name).ctx.createdDBs = d.createdDBs ∧
    (d.Exists url handleRequest name).ctx.deletedDBs = d.deletedDBs := by
  simp [dbsTxContext.Exists, h]

theorem spent_exists_rejected_witness :
    spentCtx.txSpent = true ∧
    (spentCtx.Exists (fun n => "/db/" ++ n) alwaysExists "db1").exist = false ∧
    (spentCtx.Exists (fun n => "/db/" ++ n) alwaysExists "db1").err
      = some GoError.ErrTxSpent ∧
    (spentCtx.Exists (fun n => "/db/" ++ n) alwaysExists "db1").queries = [] ∧
    (spentCtx.Exists (fun n => "/db/" ++ n) alwaysExists "db1").ctx.createdDBs
      = spentCtx.createdDBs ∧
    (spentCtx.Exists (fun n => "/db/" ++ n) alwaysExists "db1").ctx.deletedDBs
      = spentCtx.deletedDBs :=
  ⟨rfl, spent_exists_rejected (fun n => "/db/" ++ n) alwaysExists spentCtx "db1" rfl⟩

/-! ## The one-shot life cycle -/

theorem dbsTxContext.commit_sign_failure_reported (cs : CryptoService) (submit : Submitter)
    (d : dbsTxContext) (kc kd : List String) (path : String) (sync : Bool) (err : GoError)
    (h : d.txSpent = false) (herr : (d.composeEnvelope cs d.txID kc kd).2 = .error err) :
    (d.commit cs submit kc kd path sync).err = some err ∧
    (d.commit cs submit kc kd path sync).submitted = [] := by
  have hc : d.composeEnvelope cs d.txID kc kd = (d, .error err) :=
    Prod.ext (dbsTxContext.composeEnvelope_ctx cs d d.txID kc kd) herr
  simp [dbsTxContext.commit, h, hc]

/-- C4: on an open context CreateDB returns no error for every name; afterwards the name is
in the created set, every other name is in the created set iff it was before, the deleted
set is unchanged and the context is still open. -/
theorem createDB_stages (d : dbsTxContext) (name : String) (h : d.txSpent = false) :
    (d.CreateDB name).2 = none ∧
    (d.CreateDB name).1.createdDBs.Mem name ∧
    (∀ other, other ≠ name →
      ((d.CreateDB name).1.createdDBs.Mem other ↔ d.createdDBs.Mem other)) ∧
    (d.CreateDB name).1.deletedDBs = d.deletedDBs ∧
    (d.CreateDB name).1.txSpent = false := by
  refine ⟨?_, ?_, ?_, ?_, ?_⟩
  · simp [dbsTxContext.CreateDB, h]
  · simp [dbsTxContext.CreateDB, h, GoMap.mem_set]
  · intro other hne
    simp [dbsTxContext.CreateDB, h, GoMap.mem_set, hne]
  · simp [dbsTxContext.CreateDB, h]
  · simp [dbsTxContext.CreateDB, h]

theorem createDB_stages_witness :
    openCtx.txSpent = false ∧
    (openCtx.CreateDB "").2 = none ∧
    (openCtx.CreateDB "").1.createdDBs.Mem "" ∧
    (∀ other, other ≠ "" →
      ((openCtx.CreateDB "").1.createdDBs.Mem other ↔ openCtx.createdDBs.Mem other)) ∧
    (openCtx.CreateDB "").1.deletedDBs = openCtx.deletedDBs ∧
    (openCtx.CreateDB "").1.txSpent = false :=
  ⟨rfl, createDB_stages openCtx "" rfl⟩

/-- C5: on an open context DeleteDB returns no error for every name, the reserved name
"bdb" included, with no validation of the name; afterwards the name is in the deleted set,
every other name is in the deleted set iff it was before, the created set is unchanged and
the context is still open. -/
theorem deleteDB_stages (d : dbsTxContext) (name : String) (h : d.txSpent = false) :
    (d.DeleteDB name).2 = none ∧
    (d.DeleteDB name).1.deletedDBs.Mem name ∧
    (∀ other, other ≠ name →
      ((d.DeleteDB name).1.deletedDBs.Mem other ↔ d.deletedDBs.Mem other)) ∧
    (d.DeleteDB name).1.createdDBs = d.createdDBs ∧
    (d.DeleteDB name).1.txSpent = false := by
  refine ⟨?_, ?_, ?_, ?_, ?_⟩
  · simp [dbsTxContext.DeleteDB, h]
  · simp [dbsTxContext.DeleteDB, h, GoMap.mem_set]
  · intro other hne
    simp [dbsTxContext.DeleteDB, h, GoMap.mem_set, hne]
  · simp [dbsTxContext.DeleteDB, h]
  · simp [dbsTxContext.DeleteDB, h]

theorem deleteDB_stages_witness :
    openCtx.txSpent = false ∧
    (openCtx.DeleteDB "bdb").2 = none ∧
    (openCtx.DeleteDB "bdb").1.deletedDBs.Mem "bdb" ∧
    (∀ other, other ≠ "bdb" →
      ((openCtx.DeleteDB "bdb").1.deletedDBs.Mem other ↔ openCtx.deletedDBs.Mem other)) ∧
    (openCtx.DeleteDB "bdb").1.createdDBs = openCtx.createdDBs ∧
    (openCtx.DeleteDB "bdb").1.txSpent = false :=
  ⟨rfl, deleteDB_stages openCtx "bdb" rfl⟩

/-- C6: staging is idempotent: on an open context CreateDB called twice with one name
returns no error both times and leaves the context the first call left; the same holds for
DeleteDB. -/
theorem staging_idempotent (d : dbsTxContext) (name : String) (h : d.txSpent = false) :
    (d.CreateDB name).2 = none ∧
    ((d.CreateDB name).1.CreateDB name).2 = none ∧
    ((d.CreateDB name).1.CreateDB name).1 = (d.CreateDB name).1 ∧
    (d.DeleteDB name).2 = none ∧
    ((d.DeleteDB name).1.DeleteDB name).2 = none ∧
    ((d.DeleteDB name).1.DeleteDB name).1 = (d.DeleteDB name).1 := by
  simp [dbsTxContext.CreateDB, dbsTxContext.DeleteDB, h, GoMap.set_set]

theorem staging_idempotent_witness :
    openCtx.txSpent = false ∧
    (openCtx.CreateDB "db3").2 = none ∧
    ((openCtx.CreateDB "db3").1.CreateDB "db3").2 = none ∧
    ((openCtx.CreateDB "db3").1.CreateDB "db3").1 = (openCtx.CreateDB "db3").1 ∧
    (openCtx.DeleteDB "db3").2 = none ∧
    ((openCtx.DeleteDB "db3").1.DeleteDB "db3").2 = none ∧
    ((openCtx.DeleteDB "db3").1.DeleteDB "db3").1 = (openCtx.DeleteDB "db3").1 :=
  ⟨rfl, staging_idempotent openCtx "db3" rfl⟩

/-! ## The envelope -/

/-- C7: when signing succeeds, the payload of the envelope composeEnvelope returns has the
user id of the context, the given transaction id, in CreateDbs every name of the created
set exactly once and no other name, and in DeleteDbs every name of the deleted set exactly
once and no other name. -/
theorem composeEnvelope_payload (cs : CryptoService) (d : dbsTxContext) (txID : String)
    (createOrder deleteOrder : List String) (envelope : DBAdministrationTxEnvelope)
    (hc : d.createdDBs.RangeOrder createOrder) (hd : d.deletedDBs.RangeOrder deleteOrder)
    (hs : (d.composeEnvelope cs txID createOrder deleteOrder).2 = .ok envelope) :
    envelope.Payload.UserId = d.userID ∧
    envelope.Payload.TxId = txID ∧
    (∀ name, envelope.Payload.CreateDbs.count name = if d.createdDBs.Mem name then 1 else 0) ∧
    (∀ name, envelope.Payload.DeleteDbs.count name = if d.deletedDBs.Mem name then 1 else 0) := by
  obtain ⟨hp, -⟩ := dbsTxContext.envelope_of_ok cs d txID createOrder deleteOrder
    envelope hs
  rw [hp, dbsTxContext.buildPayload_eq]
  exact ⟨rfl, rfl, fun name => hc.count_eq name, fun name => hd.count_eq name⟩

theorem composeEnvelope_payload_witness :
    twoCtx.createdDBs.RangeOrder ["bb", "a"] ∧ twoCtx.deletedDBs.RangeOrder [] ∧
    (twoCtx.composeEnvelope echoSigner "tx7" ["bb", "a"] []).2 =
      .ok { Payload := { UserId := "admin", TxId := "tx7", CreateDbs := ["bb", "a"],
                         DeleteDbs := [] },
            Signature := [2, 1] } ∧
    ("admin" = twoCtx.userID ∧
     "tx7" = "tx7" ∧
     (∀ name, ["bb", "a"].count name = if twoCtx.createdDBs.Mem name then 1 else 0) ∧
     (∀ name, ([] : List String).count name
        = if twoCtx.deletedDBs.Mem name then 1 else 0)) :=
  ⟨by decide, by decide, rfl,
   composeEnvelope_payload echoSigner twoCtx "tx7" ["bb", "a"] []
     { Payload := { UserId := "admin", TxId := "tx7", CreateDbs := ["bb", "a"],
                    DeleteDbs := [] },
       Signature := [2, 1] } (by decide) (by decide) rfl⟩

/-- C8, as it is stated, fails: on a fresh open context CreateDB of a name followed by
DeleteDB of the same name returns no error, and the payload composed afterwards lists the
name both in CreateDbs and in DeleteDbs. -/
theorem create_then_delete_counterexample :
    freshCtx.txSpent = false ∧
    ¬ freshCtx.createdDBs.Mem "db1" ∧ ¬ freshCtx.deletedDBs.Mem "db1" ∧
    ((freshCtx.CreateDB "db1").1.DeleteDB "db1").1.createdDBs.RangeOrder ["db1"] ∧
    ((freshCtx.CreateDB "db1").1.DeleteDB "db1").1.deletedDBs.RangeOrder ["db1"] ∧
    ¬ (((freshCtx.CreateDB "db1").1.DeleteDB "db1").2 ≠ none ∨
       ("db1" ∉ (((freshCtx.CreateDB "db1").1.DeleteDB "db1").1.buildPayload "tx1"
                  ["db1"] ["db1"]).CreateDbs ∧
        "db1" ∉ (((freshCtx.CreateDB "db1").1.DeleteDB "db1").1.buildPayload "tx1"
                  ["db1"] ["db1"]).DeleteDbs)) := by
  decide

/-- C8, amended: for every open context and every name, CreateDB of the name and the
DeleteDB of the same name that follows both return no error, and every envelope composed
afterwards lists the name exactly once in CreateDbs and exactly once in DeleteDbs: the
client does not cancel the pair, it is left to the server to judge. -/
theorem create_then_delete_listed (cs : CryptoService) (d : dbsTxContext) (name txID : String)
    (createOrder deleteOrder : List String) (envelope : DBAdministrationTxEnvelope)
    (h : d.txSpent = false)
    (hc : ((d.CreateDB name).1.DeleteDB name).1.createdDBs.RangeOrder createOrder)
    (hd : ((d.CreateDB name).1.DeleteDB name).1.deletedDBs.RangeOrder deleteOrder)
    (hs : (((d.CreateDB name).1.DeleteDB name).1.composeEnvelope cs txID createOrder
            deleteOrder).2 = .ok envelope) :
    (d.CreateDB name).2 = none ∧
    ((d.CreateDB name).1.DeleteDB name).2 = none ∧
    envelope.Payload.CreateDbs.count name = 1 ∧
    envelope.Payload.DeleteDbs.count name = 1 := by
  obtain ⟨hp, -⟩ := dbsTxContext.envelope_of_ok cs _ txID createOrder deleteOrder
    envelope hs
  rw [hp, dbsTxContext.buildPayload_eq]
  have h1 := hc.count_eq name
  have h2 := hd.count_eq name
  simp only [dbsTxContext.CreateDB, dbsTxContext.DeleteDB, h, Bool.false_eq_true, if_false,
    GoMap.mem_set, true_or, if_true] at h1 h2
  refine ⟨?_, ?_, h1, h2⟩
  · simp [dbsTxContext.CreateDB, h]
  · simp [dbsTxContext.CreateDB, dbsTxContext.DeleteDB, h]

theorem create_then_delete_listed_witness :
    freshCtx.txSpent = false ∧
    ((freshCtx.CreateDB "db1").1.DeleteDB "db1").1.createdDBs.RangeOrder ["db1"] ∧
    ((freshCtx.CreateDB "db1").1.DeleteDB "db1").1.deletedDBs.RangeOrder ["db1"] ∧
    (((freshCtx.CreateDB "db1").1.DeleteDB "db1").1.composeEnvelope echoSigner "tx1"
        ["db1"] ["db1"]).2 =
      .ok { Payload := { UserId := "admin", TxId := "tx1", CreateDbs := ["db1"],
                         DeleteDbs := ["db1"] },
            Signature := [3, 3] } ∧
    ((freshCtx.CreateDB "db1").2 = none ∧
     ((freshCtx.CreateDB "db1").1.DeleteDB "db1").2 = none ∧
     ["db1"].count "db1" = 1 ∧
     ["db1"].count "db1" = 1) :=
  ⟨rfl, by decide, by decide, rfl,
   create_then_delete_listed echoSigner freshCtx "db1" "tx1" ["db1"] ["db1"]
     { Payload := { UserId := "admin", TxId := "tx1", CreateDbs := ["db1"],
                    DeleteDbs := ["db1"] },
       Signature := [3, 3] } rfl (by decide) (by decide) rfl⟩

/-- C9, as it is stated, fails: two runs of composeEnvelope on one context state, with one
txID and one deterministic signer, may visit the created set in different orders, and then
build different payloads, sign different byte sequences and return different envelopes. -/
theorem composeEnvelope_order_counterexample :
    twoCtx.createdDBs.RangeOrder ["a", "bb"] ∧
    twoCtx.createdDBs.RangeOrder ["bb", "a"] ∧
    twoCtx.deletedDBs.RangeOrder [] ∧
    twoCtx.buildPayload "tx1" ["a", "bb"] [] ≠ twoCtx.buildPayload "tx1" ["bb", "a"] [] ∧
    echoSigner.marshal (twoCtx.buildPayload "tx1" ["a", "bb"] []) = .ok [1, 2] ∧
    echoSigner.marshal (twoCtx.buildPayload "tx1" ["bb", "a"] []) = .ok [2, 1] ∧
    (twoCtx.composeEnvelope echoSigner "tx1" ["a", "bb"] []).2 =
      .ok { Payload := { UserId := "admin", TxId := "tx1", CreateDbs := ["a", "bb"],
                         DeleteDbs := [] },
            Signature := [1, 2] } ∧
    (twoCtx.composeEnvelope echoSigner "tx1" ["bb", "a"] []).2 =
      .ok { Payload := { UserId := "admin", TxId := "tx1", CreateDbs := ["bb", "a"],
                         DeleteDbs := [] },
            Signature := [2, 1] } ∧
    (twoCtx.composeEnvelope echoSigner "tx1" ["a", "bb"] []).2 ≠
      (twoCtx.composeEnvelope echoSigner "tx1" ["bb", "a"] []).2 :=
  ⟨by decide, by decide, by decide, by decide, rfl, rfl, rfl, rfl,
   fun h => by
    have h' : (twoCtx.composeEnvelope echoSigner "tx1" ["a", "bb"] []).2 =
        .ok { Payload := { UserId := "admin", TxId := "tx1", CreateDbs := ["bb", "a"],
                           DeleteDbs := [] },
              Signature := [2, 1] } := h
    have h'' : (Except.ok { Payload := { UserId := "admin", TxId := "tx1",
                                         CreateDbs := ["a", "bb"], DeleteDbs := [] },
                            Signature := [1, 2] } :
                  Except GoError DBAdministrationTxEnvelope) =
        .ok { Payload := { UserId := "admin", TxId := "tx1", CreateDbs := ["bb", "a"],
                           DeleteDbs := [] },
              Signature := [2, 1] } := h'
    injection h'' with he
    exact absurd he (by decide)⟩

/-- C9, amended: two runs of composeEnvelope on one context state and one txID build
payloads with the same UserId and TxId whose CreateDbs hold the same names, each once, and
whose DeleteDbs hold the same names, each once, in orders that may differ; when the two
runs visit both staged sets in the same order they build the same payload, hand the same
byte sequence to the signer and return the same result. -/
theorem composeEnvelope_runs_agree (cs : CryptoService) (d : dbsTxContext) (txID : String)
    (createOrder createOrder2 deleteOrder deleteOrder2 : List String)
    (hc : d.createdDBs.RangeOrder createOrder) (hc2 : d.createdDBs.RangeOrder createOrder2)
    (hd : d.deletedDBs.RangeOrder deleteOrder) (hd2 : d.deletedDBs.RangeOrder deleteOrder2) :
    (d.buildPayload txID createOrder deleteOrder).UserId =
      (d.buildPayload txID createOrder2 deleteOrder2).UserId ∧
    (d.buildPayload txID createOrder deleteOrder).TxId =
      (d.buildPayload txID createOrder2 deleteOrder2).TxId ∧
    (d.buildPayload txID createOrder deleteOrder).CreateDbs.Perm
      (d.buildPayload txID createOrder2 deleteOrder2).CreateDbs ∧
    (d.buildPayload txID createOrder deleteOrder).DeleteDbs.Perm
      (d.buildPayload txID createOrder2 deleteOrder2).DeleteDbs ∧
    (d.buildPayload txID createOrder deleteOrder).CreateDbs.Nodup ∧
    (d.buildPayload txID createOrder deleteOrder).DeleteDbs.Nodup ∧
    (createOrder = createOrder2 → deleteOrder = deleteOrder2 →
      d.buildPayload txID createOrder deleteOrder =
        d.buildPayload txID createOrder2 deleteOrder2 ∧
      cs.marshal (d.buildPayload txID createOrder deleteOrder) =
        cs.marshal (d.buildPayload txID createOrder2 deleteOrder2) ∧
      d.composeEnvelope cs txID createOrder deleteOrder =
        d.composeEnvelope cs txID createOrder2 deleteOrder2) := by
  rw [dbsTxContext.buildPayload_eq d txID createOrder deleteOrder,
    dbsTxContext.buildPayload_eq d txID createOrder2 deleteOrder2]
  refine ⟨rfl, rfl, hc.trans hc2.symm, hd.trans hd2.symm, ?_, ?_, ?_⟩
  · exact (List.Perm.nodup_iff hc).mpr d.createdDBs.nodupKeys
  · exact (List.Perm.nodup_iff hd).mpr d.deletedDBs.nodupKeys
  · rintro rfl rfl
    exact ⟨rfl, rfl, rfl⟩

theorem composeEnvelope_runs_agree_witness :
    twoCtx.createdDBs.RangeOrder ["a", "bb"] ∧
    twoCtx.createdDBs.RangeOrder ["bb", "a"] ∧
    twoCtx.deletedDBs.RangeOrder [] ∧
    (twoCtx.buildPayload "tx1" ["a", "bb"] []).CreateDbs.Perm
      (twoCtx.buildPayload "tx1" ["bb", "a"] []).CreateDbs ∧
    (twoCtx.buildPayload "tx1" ["a", "bb"] []).DeleteDbs.Perm
      (twoCtx.buildPayload "tx1" ["bb", "a"] []).DeleteDbs ∧
    twoCtx.composeEnvelope echoSigner "tx1" ["bb", "a"] [] =
      twoCtx.composeEnvelope echoSigner "tx1" ["bb", "a"] [] :=
  ⟨by decide, by decide, by decide,
   (composeEnvelope_runs_agree echoSigner twoCtx "tx1" ["a", "bb"] ["bb", "a"] [] []
      (by decide) (by decide) (by decide) (by decide)).2.2.1,
   (composeEnvelope_runs_agree echoSigner twoCtx "tx1" ["a", "bb"] ["bb", "a"] [] []
      (by decide) (by decide) (by decide) (by decide)).2.2.2.1,
   ((composeEnvelope_runs_agree echoSigner twoCtx "tx1" ["bb", "a"] ["bb", "a"] [] []
      (by decide) (by decide) (by decide) (by decide)).2.2.2.2.2.2 rfl rfl).2.2⟩

/-- C10: if signing fails, composeEnvelope returns that signing error and no envelope, and
the context is as before: the spent flag and both staged sets are unchanged. -/
theorem composeEnvelope_sign_failure (cs : CryptoService) (d : dbsTxContext) (txID : String)
    (createOrder deleteOrder : List String) (err : GoError)
    (h : SignTx cs (d.buildPayload txID createOrder deleteOrder) = .error err) :
    (d.composeEnvelope cs txID createOrder deleteOrder).2 = .error err ∧
    (d.composeEnvelope cs txID createOrder deleteOrder).1.txSpent = d.txSpent ∧
    (d.composeEnvelope cs txID createOrder deleteOrder).1.createdDBs = d.createdDBs ∧
    (d.composeEnvelope cs txID createOrder deleteOrder).1.deletedDBs = d.deletedDBs := by
  simp [dbsTxContext.composeEnvelope, h]

theorem composeEnvelope_sign_failure_witness :
    SignTx failingSigner (openCtx.buildPayload "tx1" ["db1"] ["db2"])
      = .error (GoError.other "signer unavailable") ∧
    (openCtx.composeEnvelope failingSigner "tx1" ["db1"] ["db2"]).2
      = .error (GoError.other "signer unavailable") ∧
    (openCtx.composeEnvelope failingSigner "tx1" ["db1"] ["db2"]).1.txSpent
      = openCtx.txSpent ∧
    (openCtx.composeEnvelope failingSigner "tx1" ["db1"] ["db2"]).1.createdDBs
      = openCtx.createdDBs ∧
    (openCtx.composeEnvelope failingSigner "tx1" ["db1"] ["db2"]).1.deletedDBs
      = openCtx.deletedDBs :=
  ⟨rfl, composeEnvelope_sign_failure failingSigner openCtx "tx1" ["db1"] ["db2"]
    (GoError.other "signer unavailable") rfl⟩

/-- C11: when signing succeeds, composeEnvelope returns an envelope whose Payload is the
payload it built and whose Signature is the result of the signer on that same payload. -/
theorem composeEnvelope_signs_payload (cs : CryptoService) (d : dbsTxContext) (txID : String)
    (createOrder deleteOrder : List String) (signature : List Nat)
    (h : SignTx cs (d.buildPayload txID createOrder deleteOrder) = .ok signature) :
    (d.composeEnvelope cs txID createOrder deleteOrder).2 =
      .ok { Payload := d.buildPayload txID createOrder deleteOrder, Signature := signature } ∧
    (∀ envelope, (d.composeEnvelope cs txID createOrder deleteOrder).2 = .ok envelope →
      envelope.Payload = d.buildPayload txID createOrder deleteOrder ∧
      SignTx cs envelope.Payload = .ok envelope.Signature) := by
  constructor
  · simp [dbsTxContext.composeEnvelope, h]
  · intro envelope henv
    obtain ⟨hp, hsig⟩ := dbsTxContext.envelope_of_ok cs d txID createOrder deleteOrder
      envelope henv
    exact ⟨hp, by rw [hp]; exact hsig⟩

theorem composeEnvelope_signs_payload_witness :
    SignTx echoSigner (twoCtx.buildPayload "tx1" ["bb", "a"] []) = .ok [2, 1] ∧
    (twoCtx.composeEnvelope echoSigner "tx1" ["bb", "a"] []).2 =
      .ok { Payload := twoCtx.buildPayload "tx1" ["bb", "a"] [], Signature := [2, 1] } ∧
    (∀ envelope, (twoCtx.composeEnvelope echoSigner "tx1" ["bb", "a"] []).2 = .ok envelope →
      envelope.Payload = twoCtx.buildPayload "tx1" ["bb", "a"] [] ∧
      SignTx echoSigner envelope.Payload = .ok envelope.Signature) :=
  ⟨rfl, composeEnvelope_signs_payload echoSigner twoCtx "tx1" ["bb", "a"] [] [2, 1] rfl⟩

/-! ## The status query -/

theorem dbsTxContext.Exists_ctx (url : String → String) (handleRequest : RequestHandler)
    (d : dbsTxContext) (name : String) : (d.Exists url handleRequest name).ctx = d := by
  unfold dbsTxContext.Exists
  split
  · rfl
  · dsimp only
    split <;> rfl

theorem dbsTxContext.Exists_queries (url : String → String) (handleRequest : RequestHandler)
    (d : dbsTxContext) (name : String) (h : d.txSpent = false) :
    (d.Exists url handleRequest name).queries =
      [(url name, { UserId := d.userID, DbName := name })] := by
  unfold dbsTxContext.Exists
  simp only [h, Bool.false_eq_true, if_false]
  split <;> rfl

theorem dbsTxContext.Exists_of_error (url : String → String) (handleRequest : RequestHandler)
    (d : dbsTxContext) (name : String) (err : GoError) (h : d.txSpent = false)
    (hq : (handleRequest (url name) { UserId := d.userID, DbName := name }
            { Response := none, Signature := [] }).2 = some err) :
    (d.Exists url handleRequest name).exist = false ∧
    (d.Exists url handleRequest name).err = some err := by
  unfold dbsTxContext.Exists
  simp only [h, Bool.false_eq_true, if_false]
  split
  · rename_i r e hr
    rw [hr] at hq
    simp only [Option.some.injEq] at hq
    subst hq
    exact ⟨rfl, rfl⟩
  · rename_i r hr
    rw [hr] at hq
    cases hq

theorem dbsTxContext.Exists_of_ok (url : String → String) (handleRequest : RequestHandler)
    (d : dbsTxContext) (name : String) (resEnv : GetDBStatusResponseEnvelope)
    (h : d.txSpent = false)
    (hq : handleRequest (url name) { UserId := d.userID, DbName := name }
            { Response := none, Signature := [] } = (resEnv, none)) :
    (d.Exists url handleRequest name).exist = resEnv.getExist ∧
    (d.Exists url handleRequest name).err = none := by
  unfold dbsTxContext.Exists
  simp only [h, Bool.false_eq_true, if_false]
  split
  · rename_i r e hr
    rw [hr] at hq
    cases hq
  · rename_i r hr
    rw [hr] at hq
    cases hq
    exact ⟨rfl, rfl⟩

/-- C12: on an open context, if the status query fails with an error, Exists returns false
together with that same error, unmodified. -/
theorem exists_query_failure (url : String → String) (handleRequest : RequestHandler)
    (d : dbsTxContext) (name : String) (err : GoError) (h : d.txSpent = false)
    (hq : (handleRequest (url name) { UserId := d.userID, DbName := name }
            { Response := none, Signature := [] }).2 = some err) :
    (d.Exists url handleRequest name).exist = false ∧
    (d.Exists url handleRequest name).err = some err :=
  dbsTxContext.Exists_of_error url handleRequest d name err h hq

theorem exists_query_failure_witness :
    openCtx.txSpent = false ∧
    (unreachable (sampleURL "bdb") { UserId := openCtx.userID, DbName := "bdb" }
        { Response := none, Signature := [] }).2
      = some (GoError.other "cannot connect to replica") ∧
    (openCtx.Exists sampleURL unreachable "bdb").exist = false ∧
    (openCtx.Exists sampleURL unreachable "bdb").err
      = some (GoError.other "cannot connect to replica") :=
  ⟨rfl, rfl, exists_query_failure sampleURL unreachable openCtx "bdb"
    (GoError.other "cannot connect to replica") rfl rfl⟩

/-- C13: Exists does not depend on staged changes: two open contexts with the same user id,
whatever their created and deleted sets, send the same single query (that user id and the
database name) and, the dispatcher answering alike, return the same boolean and the same
error; and Exists leaves the created set and the deleted set of every context as they
were. -/
theorem exists_ignores_staged (url : String → String) (handleRequest : RequestHandler)
    (d1 d2 : dbsTxContext) (name : String) (hu : d1.userID = d2.userID)
    (h1 : d1.txSpent = false) (h2 : d2.txSpent = false) :
    (d1.Exists url handleRequest name).queries =
      [(url name, { UserId := d1.userID, DbName := name })] ∧
    (d1.Exists url handleRequest name).queries = (d2.Exists url handleRequest name).queries ∧
    (d1.Exists url handleRequest name).exist = (d2.Exists url handleRequest name).exist ∧
    (d1.Exists url handleRequest name).err = (d2.Exists url handleRequest name).err ∧
    (∀ d : dbsTxContext,
      (d.Exists url handleRequest name).ctx.createdDBs = d.createdDBs ∧
      (d.Exists url handleRequest name).ctx.deletedDBs = d.deletedDBs) := by
  refine ⟨dbsTxContext.Exists_queries url handleRequest d1 name h1, ?_, ?_, ?_, ?_⟩
  · rw [dbsTxContext.Exists_queries url handleRequest d1 name h1,
      dbsTxContext.Exists_queries url handleRequest d2 name h2, hu]
  · rcases hr : handleRequest (url name) { UserId := d2.userID, DbName := name }
        { Response := none, Signature := [] } with ⟨r, e⟩
    cases e with
    | none =>
      rw [(dbsTxContext.Exists_of_ok url handleRequest d2 name r h2 hr).1,
        (dbsTxContext.Exists_of_ok url handleRequest d1 name r h1 (hu ▸ hr)).1]
    | some e =>
      have hr2 : (handleRequest (url name) { UserId := d2.userID, DbName := name }
          { Response := none, Signature := [] }).2 = some e := by rw [hr]
      rw [(dbsTxContext.Exists_of_error url handleRequest d2 name e h2 hr2).1,
        (dbsTxContext.Exists_of_error url handleRequest d1 name e h1 (hu ▸ hr2)).1]
  · rcases hr : handleRequest (url name) { UserId := d2.userID, DbName := name }
        { Response := none, Signature := [] } with ⟨r, e⟩
    cases e with
    | none =>
      rw [(dbsTxContext.Exists_of_ok url handleRequest d2 name r h2 hr).2,
        (dbsTxContext.Exists_of_ok url handleRequest d1 name r h1 (hu ▸ hr)).2]
    | some e =>
      have hr2 : (handleRequest (url name) { UserId := d2.userID, DbName := name }
          { Response := none, Signature := [] }).2 = some e := by rw [hr]
      rw [(dbsTxContext.Exists_of_error url handleRequest d2 name e h2 hr2).2,
        (dbsTxContext.Exists_of_error url handleRequest d1 name e h1 (hu ▸ hr2)).2]
  · intro d
    rw [dbsTxContext.Exists_ctx]
    exact ⟨rfl, rfl⟩

theorem exists_ignores_staged_witness :
    openCtx.userID = twoCtx.userID ∧ openCtx.txSpent = false ∧ twoCtx.txSpent = false ∧
    openCtx.createdDBs ≠ twoCtx.createdDBs ∧
    (openCtx.Exists sampleURL alwaysExists "db1").queries =
      [(sampleURL "db1", { UserId := openCtx.userID, DbName := "db1" })] ∧
    (openCtx.Exists sampleURL alwaysExists "db1").queries =
      (twoCtx.Exists sampleURL alwaysExists "db1").queries ∧
    (openCtx.Exists sampleURL alwaysExists "db1").exist =
      (twoCtx.Exists sampleURL alwaysExists "db1").exist ∧
    (openCtx.Exists sampleURL alwaysExists "db1").err =
      (twoCtx.Exists sampleURL alwaysExists "db1").err ∧
    (∀ d : dbsTxContext,
      (d.Exists sampleURL alwaysExists "db1").ctx.createdDBs = d.createdDBs ∧
      (d.Exists sampleURL alwaysExists "db1").ctx.deletedDBs = d.deletedDBs) :=
  ⟨rfl, rfl, rfl, by decide,
   exists_ignores_staged sampleURL alwaysExists openCtx twoCtx "db1" rfl rfl rfl⟩

/-- C14: on an open context, if the status query completes without error, Exists returns
no error and the exist flag of the response, and false when the response envelope carries
no response body. -/
theorem exists_query_success (url : String → String) (handleRequest : RequestHandler)
    (d : dbsTxContext) (name : String) (resEnv : GetDBStatusResponseEnvelope)
    (h : d.txSpent = false)
    (hq : handleRequest (url name) { UserId := d.userID, DbName := name }
            { Response := none, Signature := [] } = (resEnv, none)) :
    (d.Exists url handleRequest name).err = none ∧
    (∀ response, resEnv.Response = some response →
      (d.Exists url handleRequest name).exist = response.Exist) ∧
    (resEnv.Response = none → (d.Exists url handleRequest name).exist = false) := by
  obtain ⟨he, herr⟩ := dbsTxContext.Exists_of_ok url handleRequest d name resEnv h hq
  refine ⟨herr, ?_, ?_⟩
  · intro response hr
    rw [he]
    simp [GetDBStatusResponseEnvelope.getExist, hr]
  · intro hr
    rw [he]
    simp [GetDBStatusResponseEnvelope.getExist, hr]

theorem exists_query_success_witness :
    openCtx.txSpent = false ∧
    alwaysExists (sampleURL "testDB") { UserId := openCtx.userID, DbName := "testDB" }
        { Response := none, Signature := [] }
      = ({ Response := some { Exist := true }, Signature := [] }, none) ∧
    emptyAnswer (sampleURL "testDB") { UserId := openCtx.userID, DbName := "testDB" }
        { Response := none, Signature := [] }
      = ({ Response := none, Signature := [] }, none) ∧
    (openCtx.Exists sampleURL alwaysExists "testDB").err = none ∧
    (openCtx.Exists sampleURL alwaysExists "testDB").exist = true ∧
    (openCtx.Exists sampleURL emptyAnswer "testDB").exist = false :=
  ⟨rfl, rfl, rfl,
   (exists_query_success sampleURL alwaysExists openCtx "testDB"
      { Response := some { Exist := true }, Signature := [] } rfl rfl).1,
   (exists_query_success sampleURL alwaysExists openCtx "testDB"
      { Response := some { Exist := true }, Signature := [] } rfl rfl).2.1
      { Exist := true } rfl,
   (exists_query_success sampleURL emptyAnswer openCtx "testDB"
      { Response := none, Signature := [] } rfl rfl).2.2 rfl⟩

/-! ## Discarding staged state -/

/-- C15: whatever was staged, cleanCtx leaves the created set and the deleted set empty and
changes nothing else (user id, transaction id, spent flag), so that a payload composed
afterwards has empty CreateDbs and empty DeleteDbs. -/
theorem cleanCtx_discards (d : dbsTxContext) :
    d.cleanCtx.createdDBs = GoMap.empty ∧
    d.cleanCtx.deletedDBs = GoMap.empty ∧
    (∀ name, ¬ d.cleanCtx.createdDBs.Mem name) ∧
    (∀ name, ¬ d.cleanCtx.deletedDBs.Mem name) ∧
    d.cleanCtx.userID = d.userID ∧
    d.cleanCtx.txSpent = d.txSpent ∧
    d.cleanCtx.tocommonTxContext = d.tocommonTxContext ∧
    (∀ (txID : String) (createOrder deleteOrder : List String),
      d.cleanCtx.createdDBs.RangeOrder createOrder →
      d.cleanCtx.deletedDBs.RangeOrder deleteOrder →
      (d.cleanCtx.buildPayload txID createOrder deleteOrder).CreateDbs = [] ∧
      (d.cleanCtx.buildPayload txID createOrder deleteOrder).DeleteDbs = []) := by
  refine ⟨rfl, rfl, ?_, ?_, rfl, rfl, rfl, ?_⟩
  · intro name hm
    simp [dbsTxContext.cleanCtx, GoMap.Mem, GoMap.keys, GoMap.empty] at hm
  · intro name hm
    simp [dbsTxContext.cleanCtx, GoMap.Mem, GoMap.keys, GoMap.empty] at hm
  · intro txID createOrder deleteOrder hc hd
    have hc0 : createOrder = [] := List.Perm.eq_nil hc
    have hd0 : deleteOrder = [] := List.Perm.eq_nil hd
    rw [dbsTxContext.buildPayload_eq, hc0, hd0]
    exact ⟨rfl, rfl⟩

theorem cleanCtx_discards_witness :
    openCtx.createdDBs.Mem "db1" ∧ openCtx.deletedDBs.Mem "db2" ∧
    openCtx.cleanCtx.createdDBs = GoMap.empty ∧
    openCtx.cleanCtx.deletedDBs = GoMap.empty ∧
    openCtx.cleanCtx.createdDBs.RangeOrder [] ∧
    openCtx.cleanCtx.deletedDBs.RangeOrder [] ∧
    (openCtx.cleanCtx.buildPayload "tx1" [] []).CreateDbs = [] ∧
    (openCtx.cleanCtx.buildPayload "tx1" [] []).DeleteDbs = [] :=
  ⟨by decide, by decide, (cleanCtx_discards openCtx).1, (cleanCtx_discards openCtx).2.1,
   by decide, by decide,
   (cleanCtx_discards openCtx).2.2.2.2.2.2.2 "tx1" [] [] (by decide) (by decide)⟩

/-! ## Admins of the configuration context -/

/-- C16: on an open configuration context with a fetched snapshot, AddAdmin of an admin
whose id is in the admin list of the snapshot fails with "admin already exists in current
config: <id>"; for an admin whose id is absent from the snapshot and not staged before,
the first AddAdmin succeeds and a second AddAdmin in the same context fails with "admin
already exists in pending config: <id>". -/
theorem addAdmin_conflicts (c : configTxContext) (admin : Admin) (h : c.txSpent = false) :
    (admin.Id ∈ c.snapshot.Admins.map Admin.Id →
      (c.AddAdmin admin).2 =
        some (GoError.other ("admin already exists in current config: " ++ admin.Id))) ∧
    (admin.Id ∉ c.snapshot.Admins.map Admin.Id → admin.Id ∉ c.adminsToAdd.map Admin.Id →
      (c.AddAdmin admin).2 = none ∧
      ((c.AddAdmin admin).1.AddAdmin admin).2 =
        some (GoError.other ("admin already exists in pending config: " ++ admin.Id))) := by
  constructor
  · intro hin
    simp only [configTxContext.AddAdmin, h, Bool.false_eq_true, if_false, hin, if_true]
  · intro hout hnew
    have hfirst : c.AddAdmin admin =
        ({ c with adminsToAdd := c.adminsToAdd ++ [admin] }, none) := by
      simp only [configTxContext.AddAdmin, h, Bool.false_eq_true, if_false, hout, hnew]
    rw [hfirst]
    refine ⟨rfl, ?_⟩
    have hstaged : admin.Id ∈ (c.adminsToAdd ++ [admin]).map Admin.Id := by simp
    simp only [configTxContext.AddAdmin, h, Bool.false_eq_true, if_false, hout, hstaged,
      if_true]

theorem addAdmin_conflicts_witness :
    configCtx.txSpent = false ∧
    (configCtx.AddAdmin { Id := "admin", Certificate := [1] }).2 =
      some (GoError.other "admin already exists in current config: admin") ∧
    ((configCtx.AddAdmin { Id := "admin2", Certificate := [2] }).2 = none ∧
     ((configCtx.AddAdmin { Id := "admin2", Certificate := [2] }).1.AddAdmin
        { Id := "admin2", Certificate := [2] }).2 =
      some (GoError.other "admin already exists in pending config: admin2")) :=
  ⟨rfl,
   (addAdmin_conflicts configCtx { Id := "admin", Certificate := [1] } rfl).1 (by decide),
   (addAdmin_conflicts configCtx { Id := "admin2", Certificate := [2] } rfl).2
     (by decide) (by decide)⟩

/-- C17: on an open configuration context with a fetched snapshot, DeleteAdmin of an id
that is absent from the admin list of the snapshot fails with "admin does not exist in
current config: <id>"; for an id that is present and not staged for deletion before, the
first DeleteAdmin succeeds and a second DeleteAdmin in the same context fails with "admin
does not exist in pending config: <id>". -/
theorem deleteAdmin_conflicts (c : configTxContext) (adminID : String)
    (h : c.txSpent = false) :
    (adminID ∉ c.snapshot.Admins.map Admin.Id →
      (c.DeleteAdmin adminID).2 =
        some (GoError.other ("admin does not exist in current config: " ++ adminID))) ∧
    (adminID ∈ c.snapshot.Admins.map Admin.Id → adminID ∉ c.adminsToDelete →
      (c.DeleteAdmin adminID).2 = none ∧
      ((c.DeleteAdmin adminID).1.DeleteAdmin adminID).2 =
        some (GoError.other ("admin does not exist in pending config: " ++ adminID))) := by
  constructor
  · intro hout
    simp only [configTxContext.DeleteAdmin, h, Bool.false_eq_true, if_false, hout,
      not_false_eq_true, if_true]
  · intro hin hnew
    have hfirst : c.DeleteAdmin adminID =
        ({ c with adminsToDelete := c.adminsToDelete ++ [adminID] }, none) := by
      simp only [configTxContext.DeleteAdmin, h, Bool.false_eq_true, if_false, hin,
        not_true_eq_false, hnew]
    rw [hfirst]
    refine ⟨rfl, ?_⟩
    have hstaged : adminID ∈ c.adminsToDelete ++ [adminID] := by simp
    simp only [configTxContext.DeleteAdmin, h, Bool.false_eq_true, if_false, hin,
      not_true_eq_false, hstaged, if_true]

theorem deleteAdmin_conflicts_witness :
    configCtx.txSpent = false ∧
    (configCtx.DeleteAdmin "non-admin").2 =
      some (GoError.other "admin does not exist in current config: non-admin") ∧
    ((configCtx.DeleteAdmin "admin").2 = none ∧
     ((configCtx.DeleteAdmin "admin").1.DeleteAdmin "admin").2 =
      some (GoError.other "admin does not exist in pending config: admin")) :=
  ⟨rfl,
   (deleteAdmin_conflicts configCtx "non-admin" rfl).1 (by decide),
   (deleteAdmin_conflicts configCtx "admin" rfl).2 (by decide) (by decide)⟩

end Bcdb
